import Mathlib

/-!
Verification development for the nomadai travel-planning backend.

The embedding models, from the source:
  * backend/services/cache_service.py  — the expiring in-memory key-value cache;
  * backend/models/travel.py           — the travel data model (TravelRequest etc.);
  * backend/services/llm_service.py    — the itinerary generation pipeline
    (fallback text generator and the marker-based itinerary parser).

Modelling conventions:
  * Python floats (budgets, costs) are modelled as exact rationals `ℚ`; the
    numeric facts proved here (e.g. `2000 * 0.9 = 1800`) are exact in IEEE
    double precision as well, so no rounding behaviour is lost.
  * `time.time()` timestamps and TTLs are modelled as `Nat` seconds.
  * `datetime.date` values are modelled as `Int` day numbers; Python date
    subtraction `(b - a).days` becomes integer subtraction.
  * Python `str` values manipulated by the parser are modelled as `List Char`
    (`Str` below), so that `in`, `find`, `split(..., 1)`, slicing and `strip`
    become executable list functions.
  * The single OpenAI chat call is modelled by an `Option Str` argument:
    `some s` is a successful call returning content `s`, `none` is any raised
    exception (network, quota, malformed response).
-/

set_option maxRecDepth 100000

namespace NomadAI

abbrev Str : Type := List Char

/-- Decimal digit character for `n < 10`. -/
def digitChar (n : Nat) : Char := Char.ofNat (48 + n)

/-- Fuel-driven decimal rendering of a natural number (models Python `str(n)`). -/
def natCharsAux : Nat → Nat → Str
  | 0, _ => []
  | fuel + 1, n => if n < 10 then [digitChar n] else natCharsAux fuel (n / 10) ++ [digitChar (n % 10)]

/-- Decimal rendering of a natural number, models Python `str(n)` / f-string `{n}`. -/
def natChars (n : Nat) : Str := natCharsAux (n + 1) n

/-- First index at or after offset `i` where `pat` occurs in the remaining text
(models the scan underlying Python `str.find` / `in`). -/
def findSubFrom (pat : Str) : Str → Nat → Option Nat
  | [], i => if pat.isEmpty then some i else none
  | c :: rest, i =>
    if pat.isPrefixOf (c :: rest) then some i else findSubFrom pat rest (i + 1)

/-- Index of the first occurrence of `pat` in `text`; models Python `text.find(pat)`
(with `none` for "not found"). -/
def findSub (text pat : Str) : Option Nat := findSubFrom pat text 0

/-- Models Python `pat in text`. -/
def containsSub (text pat : Str) : Bool := (findSub text pat).isSome

/-- Models Python `text.split(pat, 1)` when `pat` occurs: returns the part before
the first occurrence and the part after it. -/
def splitOnce (text pat : Str) : Option (Str × Str) :=
  match findSub text pat with
  | some i => some (text.take i, text.drop (i + pat.length))
  | none => none

/-- Models Python `str.strip()` (whitespace trimming on both ends). -/
def stripBoth (s : Str) : Str :=
  ((s.dropWhile Char.isWhitespace).reverse.dropWhile Char.isWhitespace).reverse

/-- Models Python `s.split("\n", 1)[0]`: the text up to the first newline. -/
def lineHead (s : Str) : Str := s.takeWhile (fun c => c ≠ '\n')

/-! ### Cache service (backend/services/cache_service.py)

A cache entry stores the serialized value and its absolute expiry time; the
cache itself is a key-unique association list standing for the Python dict. -/

structure CacheEntry where
  value : String
  expires_at : Nat
  deriving DecidableEq

abbrev Cache : Type := List (String × CacheEntry)

/-- First entry stored under `key` (models Python `self._cache.get(key)`). -/
def lookupEntry : Cache → String → Option CacheEntry
  | [], _ => none
  | (k, e) :: rest, key => if k = key then some e else lookupEntry rest key

/-- Removal of the entry stored under `key` (models Python `del self._cache[key]`),
preserving the order of the remaining entries. -/
def eraseKey : Cache → String → Cache
  | [], _ => []
  | p :: rest, key => if p.1 = key then eraseKey rest key else p :: eraseKey rest key

namespace CacheService

/-- Models `CacheService.set`: serialize the value and store it with
`expires_at = now + expiry` (overwriting any previous entry for the key). -/
def set {α : Type} (serialize : α → String) (c : Cache) (key : String) (v : α)
    (now expiry : Nat) : Cache :=
  (key, ⟨serialize v, now + expiry⟩) :: eraseKey c key

/-- Models `CacheService.get`: a missing key yields `none`; an entry with
`expires_at ≤ now` is deleted and yields `none`; otherwise the stored value is
deserialized and returned. Returns the result together with the cache after the
call (the lazy-eviction side effect). -/
def get {β : Type} (deserialize : String → β) (c : Cache) (key : String)
    (now : Nat) : Option β × Cache :=
  match lookupEntry c key with
  | none => (none, c)
  | some e =>
    if e.expires_at ≤ now then (none, eraseKey c key)
    else (some (deserialize e.value), c)

/-- Models `CacheService._cleanup_expired`: one sweep pass deletes every entry
with `expires_at ≤ current_time` and keeps the rest. -/
def cleanup_expired (c : Cache) (now : Nat) : Cache :=
  c.filter (fun p => ¬ p.2.expires_at ≤ now)

end CacheService

/-! ### Travel data model (backend/models/travel.py) -/

structure FlightOption where
  airline : String
  price : ℚ
  origin : String
  destination : String
  depart_date : Int
  return_date : Int
  flight_number : Option String := none
  departure_time : Option String := none
  arrival_time : Option String := none
  deriving DecidableEq

structure HotelOption where
  name : String
  price_per_night : ℚ
  stars : ℚ
  city : String
  address : Option String := none
  amenities : Option (List String) := none
  deriving DecidableEq

structure PointOfInterest where
  name : String
  category : String
  rating : ℚ
  address : String
  description : Option String := none
  price_level : Option Int := none
  deriving DecidableEq

structure TravelRequest where
  origin : String
  destination : String
  depart_date : Int
  return_date : Int
  budget : ℚ
  preferences : List String := []
  deriving DecidableEq

/-- Models the `TravelRequest.duration` property:
`max(1, (self.return_date - self.depart_date).days + 1)`. -/
def TravelRequest.duration (r : TravelRequest) : Int :=
  max 1 (r.return_date - r.depart_date + 1)

structure ItineraryDayActivity where
  day : Nat
  date : Int
  description : Str
  morning : Option Str := none
  afternoon : Option Str := none
  evening : Option Str := none
  accommodation : Option String := none
  deriving DecidableEq

structure Itinerary where
  request_id : String
  travel_request : TravelRequest
  selected_flight : Option FlightOption := none
  selected_hotel : Option HotelOption := none
  points_of_interest : List PointOfInterest := []
  daily_plan : List ItineraryDayActivity := []
  summary : Str
  total_cost : ℚ
  deriving DecidableEq

/-! ### Itinerary generation pipeline (backend/services/llm_service.py) -/

namespace LLMPlanningService

/-- The day-header variants searched by `_parse_itinerary`, in source order:
`### Day N`, `## Day N`, `Day N:`, `Day N -`.  The source builds markers for a
subsequent day via `marker.replace(str(day), str(next_day))`; since the digits
of `day` occur exactly once in each marker, that equals instantiating the same
template at the other day number. -/
def dayMarkers (day : Nat) : List Str :=
  [ "### Day ".data ++ natChars day,
    "## Day ".data ++ natChars day,
    "Day ".data ++ natChars day ++ ":".data,
    "Day ".data ++ natChars day ++ " -".data ]

/-- The suffix of `text` after the first marker variant of `day` that occurs in
it (source: the `for marker in day_markers` loop with its `break`), if any. -/
def firstMarkerSuffix (text : Str) (markers : List Str) : Option Str :=
  match markers with
  | [] => none
  | m :: rest =>
    match splitOnce text m with
    | some (_, suffix) => some suffix
    | none => firstMarkerSuffix text rest

/-- Pointwise minimum on optional indices (absent = `float('inf')` in the source). -/
def minOpt : Option Nat → Option Nat → Option Nat
  | none, b => b
  | some a, none => some a
  | some a, some b => some (min a b)

/-- Earliest index in `suffix` of any marker variant of day `nd`. -/
def nextDayIdxFor (suffix : Str) (nd : Nat) : Option Nat :=
  (dayMarkers nd).foldl (fun acc m => minOpt acc (findSub suffix m)) none

/-- Earliest index in `suffix` of any marker of any day in `day+1 .. days`
(source: the nested `for next_day` / `for next_marker` loops computing
`next_day_idx`). -/
def nextDayIdx (suffix : Str) (day days : Nat) : Option Nat :=
  (List.range' (day + 1) (days - day)).foldl
    (fun acc nd => minOpt acc (nextDayIdxFor suffix nd)) none

/-- The content extracted for `day`: from its first matched header variant up to
the earliest subsequent day header, or to end-of-text when none occurs; empty
when no header variant of `day` occurs in `text`. -/
def dayContent (text : Str) (day days : Nat) : Str :=
  match firstMarkerSuffix text (dayMarkers day) with
  | none => []
  | some suffix =>
    match nextDayIdx suffix day days with
    | some i => suffix.take i
    | none => suffix

/-- Value of a `Morning:` / `Afternoon:` / `Evening:` marker inside a day's
content: the rest of that line after the first occurrence, stripped
(source: `day_content.split(marker, 1)[1].split("\n", 1)[0].strip()`). -/
def sectionAfter (content marker : Str) : Option Str :=
  match splitOnce content marker with
  | some (_, rest) => some (stripBoth (lineHead rest))
  | none => none

/-- One iteration of the `for day in range(1, days + 1)` loop of
`_parse_itinerary`: build the day's activity record, or skip the day when its
extracted content is empty (`if day_content:`). -/
def parseDay (req : TravelRequest) (text : Str) (days : Nat)
    (hotelName : Option String) (day : Nat) : Option ItineraryDayActivity :=
  let content := dayContent text day days
  if content.isEmpty then none
  else
    some
      { day := day
        date := req.depart_date + ((day : Int) - 1)
        description := stripBoth content
        morning := sectionAfter content ("Morning:".data)
        afternoon := sectionAfter content ("Afternoon:".data)
        evening := sectionAfter content ("Evening:".data)
        accommodation := hotelName }

/-- Attempted match of the cost pattern `SGD\s*([\d,]+(\.\d+)?)` anchored at the
start of `s`; returns the text of capture group 1 on success. -/
def matchCostAt (s : Str) : Option Str :=
  if ("SGD".data).isPrefixOf s then
    let s1 := (s.drop 3).dropWhile Char.isWhitespace
    let digits := s1.takeWhile (fun c => c.isDigit || c = ',')
    if digits.isEmpty then none
    else
      match s1.drop digits.length with
      | '.' :: r2 =>
        let frac := r2.takeWhile Char.isDigit
        if frac.isEmpty then some digits else some (digits ++ '.' :: frac)
      | _ => some digits
  else none

/-- Models `re.search(r'SGD\s*([\d,]+(\.\d+)?)', s)`: the leftmost match wins. -/
def searchCost : Str → Option Str
  | [] => none
  | c :: rest =>
    match matchCostAt (c :: rest) with
    | some g => some g
    | none => searchCost rest

/-- Digit string to natural number. -/
def digitsToNat (s : Str) : Nat :=
  s.foldl (fun acc c => 10 * acc + (c.toNat - 48)) 0

/-- Models Python `float(x)` on the strings the cost regex can produce after
`,` removal: an optional integer part, optionally followed by `.` and a digit
fraction; the empty string fails (`ValueError`).  The decimal value is built
with `mkRat` (so `"1250.50"` becomes `mkRat 125050 100 = 2501/2`), which keeps
the definition kernel-computable. -/
def parseFloat (s : Str) : Option ℚ :=
  let intPart := s.takeWhile Char.isDigit
  match s.drop intPart.length with
  | [] => if intPart.isEmpty then none else some (mkRat (digitsToNat intPart) 1)
  | '.' :: frac =>
    if intPart.isEmpty ∧ frac.isEmpty then none
    else if frac.all Char.isDigit then
      some (mkRat ((digitsToNat intPart * 10 ^ frac.length + digitsToNat frac : Nat) : Int)
        (10 ^ frac.length))
    else none
  | _ => none

/-- The cost value extracted by `_parse_itinerary` when the marker search and
the regex both succeed: split at `Total cost:` (preferred) or `Total Cost:`,
regex-search the remainder, strip commas from group 1 and parse it as a float. -/
def costCandidate (text : Str) : Option ℚ :=
  if containsSub text ("Total cost:".data) ∨ containsSub text ("Total Cost:".data) then
    let marker := if containsSub text ("Total cost:".data)
      then ("Total cost:".data) else ("Total Cost:".data)
    match splitOnce text marker with
    | some (_, costText) =>
      match searchCost costText with
      | some g => parseFloat (g.filter (fun c => c ≠ ','))
      | none => none
    | none => none
  else none

/-- The total cost reported by `_parse_itinerary`: the extracted value when the
marker, regex and float conversion all succeed, else `budget * 0.9`. -/
def extractTotalCost (text : Str) (budget : ℚ) : ℚ :=
  (costCandidate text).getD (budget * (9 / 10))

/-- The summary extracted by `_parse_itinerary`: the text before the first
`"\n\n"`, or the first 200 characters when no double newline occurs. -/
def extractSummary (text : Str) : Str :=
  match splitOnce text ("\n\n".data) with
  | some (pre, _) => pre
  | none => text.take 200

/-- Models `LLMPlanningService._parse_itinerary`.  `reqId` stands for the fresh
`str(uuid.uuid4())` identifier. -/
def parse_itinerary (req : TravelRequest) (itinerary_text : Str)
    (flights : List FlightOption) (hotels : List HotelOption)
    (pois : List PointOfInterest) (reqId : String) : Itinerary :=
  let selected_flight := flights.head?
  let selected_hotel := hotels.head?
  let days := req.duration.toNat
  { request_id := reqId
    travel_request := req
    selected_flight := selected_flight
    selected_hotel := selected_hotel
    points_of_interest := pois
    daily_plan := (List.range' 1 days).filterMap
      (parseDay req itinerary_text days (selected_hotel.map (fun h => h.name)))
    summary := extractSummary itinerary_text
    total_cost := extractTotalCost itinerary_text req.budget }

/-- One `### Day N` section of the fallback text, with its fixed placeholder
morning/afternoon/evening lines. -/
def fallbackDayBlock (day : Nat) : Str :=
  "### Day ".data ++ natChars day ++ "\n".data ++
  "- Morning: Breakfast at hotel, explore local area\n".data ++
  "- Afternoon: Visit main tourist attractions\n".data ++
  "- Evening: Dinner at local restaurant\n\n".data

/-- The number of cents in `q * 0.9`, rounded to nearest: for `q = n / d` this
is `⌊90 * q + 1 / 2⌋ = ⌊(180 * n + d) / (2 * d)⌋`, computed directly on the
numerator and denominator so that it is kernel-computable.  Models the value
rendered by the f-string `{budget * 0.9:.2f}` (round to nearest; no tie arises
for the budgets used in the claims, so the tie-breaking rule is immaterial). -/
def fallbackCostCents (q : ℚ) : Nat :=
  (Int.fdiv (180 * q.num + q.den) (2 * q.den)).toNat

/-- Fixed-point rendering with two decimals of a cents count, models the
f-string `{x:.2f}` applied to `cents / 100`. -/
def formatCents (cents : Nat) : Str :=
  natChars (cents / 100) ++ ".".data ++
    (if cents % 100 < 10 then '0' :: natChars (cents % 100) else natChars (cents % 100))

/-- Models `LLMPlanningService._generate_fallback_itinerary`. -/
def generate_fallback_itinerary (req : TravelRequest) : Str :=
  let duration := req.duration.toNat
  "# Trip to ".data ++ req.destination.data ++ "\n\n".data ++
  "## Overview\n".data ++
  "A ".data ++ natChars duration ++ "-day trip to ".data ++ req.destination.data ++
    " from ".data ++ req.origin.data ++ ".\n\n".data ++
  "## Suggested Flight\n".data ++
  "Economy class flight from ".data ++ req.origin.data ++ " to ".data ++
    req.destination.data ++ ".\n\n".data ++
  "## Suggested Accommodation\n".data ++
  "Standard hotel in ".data ++ req.destination.data ++ " city center.\n\n".data ++
  "## Day-by-Day Itinerary\n".data ++
  (List.range' 1 duration).foldl (fun acc d => acc ++ fallbackDayBlock d) [] ++
  "## Estimated Budget\n".data ++
  "Total estimated cost: SGD ".data ++ formatCents (fallbackCostCents req.budget) ++ "\n".data

/-- Models `LLMPlanningService._generate_itinerary_text`: a successful model
call returns its content stripped; any exception during the call is absorbed
and the deterministic fallback text is returned instead. -/
def generate_itinerary_text (req : TravelRequest) (llmResponse : Option Str) : Str :=
  match llmResponse with
  | some content => stripBoth content
  | none => generate_fallback_itinerary req

/-- Models `LLMPlanningService.create_itinerary`: generate the itinerary text
(model call or fallback) and parse it. -/
def create_itinerary (req : TravelRequest) (flights : List FlightOption)
    (hotels : List HotelOption) (pois : List PointOfInterest)
    (llmResponse : Option Str) (reqId : String) : Itinerary :=
  parse_itinerary req (generate_itinerary_text req llmResponse) flights hotels pois reqId

/-- The NotFound-class failures of `generate_itinerary`
(`HTTPException(status_code=404, detail=...)` in the source). -/
inductive PipelineError where
  | noFlights (origin destination : String)
  | noHotels (destination : String)
  deriving DecidableEq

/-- Models `LLMPlanningService.generate_itinerary` at the pipeline boundary:
the already-fetched candidate lists are inputs; an empty flight list raises 404
naming the route, an empty hotel list raises 404 naming the city, and otherwise
the itinerary is created. -/
def generate_itinerary (req : TravelRequest) (flights : List FlightOption)
    (hotels : List HotelOption) (pois : List PointOfInterest)
    (llmResponse : Option Str) (reqId : String) : Except PipelineError Itinerary :=
  if flights.isEmpty then
    Except.error (PipelineError.noFlights req.origin req.destination)
  else if hotels.isEmpty then
    Except.error (PipelineError.noHotels req.destination)
  else
    Except.ok (create_itinerary req flights hotels pois llmResponse reqId)

end LLMPlanningService

/-! ### Concrete fixtures used to instantiate the claims -/

/-- A 3-day request (depart day 0, return day 2) with budget 2000. -/
def sampleRequest : TravelRequest :=
  { origin := "SIN", destination := "BKK", depart_date := 0, return_date := 2,
    budget := 2000, preferences := [] }

/-- A request whose departure and return dates coincide. -/
def sameDayRequest : TravelRequest :=
  { origin := "SIN", destination := "KUL", depart_date := 5, return_date := 5,
    budget := 1000, preferences := [] }

def sampleFlight : FlightOption :=
  { airline := "SQ", price := 300, origin := "SIN", destination := "BKK",
    depart_date := 0, return_date := 2 }

def sampleHotel : HotelOption :=
  { name := "Grand Hotel", price_per_night := 120, stars := 4, city := "BKK" }

/-- The header-variant test text of the spec (for a 3-day trip). -/
def headerVariantText : Str :=
  ("### Day 2\nMorning: Museum\nAfternoon: Park\n### Day 3").data

/-- A text with a cost marker followed by a currency-prefixed decimal. -/
def costText : Str := ("Estimated budget\nTotal Cost: SGD 1,250.50\n").data

/-- A text with a cost marker but no currency-prefixed number after it. -/
def costTextNoNumber : Str := ("Estimated budget\nTotal Cost: none\n").data

/-- A model answer with no `Day N` headers at all. -/
def noHeaderText : Str := ("A pleasant trip with no day structure.").data

/-- Number of (possibly overlapping) occurrences of `pat` in `text`;
used to count the `### Day ` sections of the fallback text. -/
def countSub : Str → Str → Nat
  | [], _ => 0
  | c :: rest, pat =>
    (if pat.isPrefixOf (c :: rest) then 1 else 0) + countSub rest pat

/-! ### Helper lemmas -/

/-- After erasing a key, looking it up yields nothing. -/
theorem lookupEntry_eraseKey_self (c : Cache) (key : String) :
    lookupEntry (eraseKey c key) key = none := by
  induction c with
  | nil => rfl
  | cons p rest ih =>
    by_cases h : p.1 = key
    · simpa [eraseKey, h] using ih
    · simp [eraseKey, lookupEntry, h, ih]

/-! ### Claims -/

/-- C8: for every `TravelRequest`, `duration = max(1, (returnDate - departDate).days + 1)`
is at least 1; for `departDate ≤ returnDate` it equals `(returnDate - departDate).days + 1`,
and equal departure and return dates give duration 1. -/
theorem duration_spec (r : TravelRequest) :
    1 ≤ r.duration
      ∧ (r.depart_date ≤ r.return_date → r.duration = r.return_date - r.depart_date + 1)
      ∧ (r.depart_date = r.return_date → r.duration = 1) := by
  unfold TravelRequest.duration
  refine ⟨le_max_left 1 _, fun h => max_eq_right (by omega), fun h => ?_⟩
  rw [h, sub_self]
  norm_num

/-- Witness for C8 at concrete requests: a 3-day request and a same-day request. -/
theorem duration_spec_witness :
    1 ≤ sampleRequest.duration ∧ sampleRequest.duration = 3 ∧ sameDayRequest.duration = 1 :=
  ⟨(duration_spec sampleRequest).1,
   by rw [(duration_spec sampleRequest).2.1 (by decide)]; decide,
   (duration_spec sameDayRequest).2.2 rfl⟩

/-- C1: after `set(k, v, ttl)` at time `now`, the entry holds the serialized
value with `expires_at = now + ttl`; a `get(k)` at a time strictly before the
expiry returns the deserialization of the serialized value and leaves the cache
unchanged, while a `get(k)` at or after the expiry returns `none` and removes
the entry from the mapping, so that an expired entry is never returned. -/
theorem cache_set_get_ttl {α β : Type} (serialize : α → String) (deserialize : String → β)
    (c : Cache) (key : String) (v : α) (now expiry t : Nat) (_hpos : 0 < expiry) :
    (t < now + expiry →
      CacheService.get deserialize (CacheService.set serialize c key v now expiry) key t
        = (some (deserialize (serialize v)), CacheService.set serialize c key v now expiry))
    ∧ (now + expiry ≤ t →
      CacheService.get deserialize (CacheService.set serialize c key v now expiry) key t
        = (none, eraseKey (CacheService.set serialize c key v now expiry) key)
      ∧ lookupEntry (eraseKey (CacheService.set serialize c key v now expiry) key) key
          = none) := by
  constructor
  · intro ht
    simp [CacheService.get, CacheService.set, lookupEntry, Nat.not_le.mpr ht]
  · intro ht
    exact ⟨by simp [CacheService.get, CacheService.set, lookupEntry, ht],
      lookupEntry_eraseKey_self _ _⟩

/-- Witness for C1: a value cached at time 0 with TTL 60 is still returned at
time 59 and is gone (entry removed) at time 60. -/
theorem cache_set_get_ttl_witness :
    CacheService.get id (CacheService.set id [] "flights:SIN:BKK" "payload" 0 60)
        "flights:SIN:BKK" 59
      = (some "payload", CacheService.set id [] "flights:SIN:BKK" "payload" 0 60)
    ∧ CacheService.get id (CacheService.set id [] "flights:SIN:BKK" "payload" 0 60)
        "flights:SIN:BKK" 60
      = (none, eraseKey (CacheService.set id [] "flights:SIN:BKK" "payload" 0 60)
          "flights:SIN:BKK") :=
  ⟨(cache_set_get_ttl id id [] "flights:SIN:BKK" "payload" 0 60 59 (by decide)).1 (by decide),
   ((cache_set_get_ttl id id [] "flights:SIN:BKK" "payload" 0 60 60 (by decide)).2
      (by decide)).1⟩

/-- C9: one pass of the background sweep keeps exactly the entries with
`now < expires_at` — every entry with `expires_at ≤ now` is removed, every
other entry is kept as-is (same key, serialized value and expiry), and the
surviving entries keep their order. -/
theorem cleanup_expired_spec (c : Cache) (now : Nat) :
    (∀ key e, (key, e) ∈ CacheService.cleanup_expired c now
        ↔ ((key, e) ∈ c ∧ now < e.expires_at))
    ∧ (CacheService.cleanup_expired c now).Sublist c := by
  constructor
  · intro key e
    simp [CacheService.cleanup_expired, List.mem_filter, Nat.not_le]
  · exact List.filter_sublist c

/-- An already-expired cache entry (expiry 10). -/
def expiredEntry : CacheEntry := ⟨"old", 10⟩

/-- A still-live cache entry (expiry 100). -/
def liveEntry : CacheEntry := ⟨"fresh", 100⟩

/-- A two-entry cache holding one expired and one live entry. -/
def sampleCache : Cache := [("a", expiredEntry), ("b", liveEntry)]

/-- Witness for C9 on a concrete cache at time 10: membership of the live
entry after the sweep is what the theorem characterizes, and the sweep result
is a sublist of the original mapping. -/
theorem cleanup_expired_spec_witness :
    (("b", liveEntry) ∈ CacheService.cleanup_expired sampleCache 10
      ↔ (("b", liveEntry) ∈ sampleCache ∧ 10 < liveEntry.expires_at))
    ∧ (CacheService.cleanup_expired sampleCache 10).Sublist sampleCache :=
  ⟨(cleanup_expired_spec sampleCache 10).1 "b" liveEntry,
   (cleanup_expired_spec sampleCache 10).2⟩

open LLMPlanningService in
/-- C3: with an empty flight candidate list the pipeline signals the
NotFound-class error naming the unmet route, with a non-empty flight list but
an empty hotel list it signals the NotFound-class error naming the city — in
both cases independently of the model call's outcome (the error is raised
before any model call is attempted) — and with both lists non-empty it
succeeds, so these are the pipeline's only terminal failures. -/
theorem pipeline_notFound_spec (req : TravelRequest) (flights : List FlightOption)
    (hotels : List HotelOption) (pois : List PointOfInterest)
    (resp resp2 : Option Str) (reqId : String) :
    (flights = [] →
      generate_itinerary req flights hotels pois resp reqId
          = Except.error (PipelineError.noFlights req.origin req.destination)
        ∧ generate_itinerary req flights hotels pois resp reqId
          = generate_itinerary req flights hotels pois resp2 reqId)
    ∧ (flights ≠ [] → hotels = [] →
      generate_itinerary req flights hotels pois resp reqId
          = Except.error (PipelineError.noHotels req.destination)
        ∧ generate_itinerary req flights hotels pois resp reqId
          = generate_itinerary req flights hotels pois resp2 reqId)
    ∧ (flights ≠ [] → hotels ≠ [] →
      generate_itinerary req flights hotels pois resp reqId
        = Except.ok (create_itinerary req flights hotels pois resp reqId)) := by
  refine ⟨fun hf => ?_, fun hf hh => ?_, fun hf hh => ?_⟩
  · subst hf
    exact ⟨rfl, rfl⟩
  · cases flights with
    | nil => exact absurd rfl hf
    | cons f fs =>
      subst hh
      exact ⟨rfl, rfl⟩
  · cases flights with
    | nil => exact absurd rfl hf
    | cons f fs =>
      cases hotels with
      | nil => exact absurd rfl hh
      | cons h hs => rfl

open LLMPlanningService in
/-- Witness for C3 at concrete inputs: empty flights give the route-naming 404,
empty hotels give the city-naming 404, and non-empty candidates succeed. -/
theorem pipeline_notFound_spec_witness :
    generate_itinerary sampleRequest [] [sampleHotel] [] none "id"
        = Except.error (PipelineError.noFlights "SIN" "BKK")
      ∧ generate_itinerary sampleRequest [sampleFlight] [] [] none "id"
        = Except.error (PipelineError.noHotels "BKK")
      ∧ generate_itinerary sampleRequest [sampleFlight] [sampleHotel] [] none "id"
        = Except.ok (create_itinerary sampleRequest [sampleFlight] [sampleHotel] [] none "id") :=
  ⟨((pipeline_notFound_spec sampleRequest [] [sampleHotel] [] none none "id").1 rfl).1,
   ((pipeline_notFound_spec sampleRequest [sampleFlight] [] [] none none "id").2.1
      (List.cons_ne_nil _ _) rfl).1,
   (pipeline_notFound_spec sampleRequest [sampleFlight] [sampleHotel] [] none none "id").2.2
      (List.cons_ne_nil _ _) (List.cons_ne_nil _ _)⟩

open LLMPlanningService in
/-- C4: when the model invocation raises (modelled by `none`), the
text-generation step returns the deterministic fallback itinerary text instead
of propagating the error; consequently, with non-empty flight and hotel
candidate lists the pipeline returns an `Itinerary` for every model outcome,
so a generation-time failure is never surfaced to the caller. -/
theorem generation_failure_absorbed (req : TravelRequest) (flights : List FlightOption)
    (hotels : List HotelOption) (pois : List PointOfInterest) (reqId : String) :
    generate_itinerary_text req none = generate_fallback_itinerary req
    ∧ (flights ≠ [] → hotels ≠ [] → ∀ resp : Option Str,
        generate_itinerary req flights hotels pois resp reqId
          = Except.ok (create_itinerary req flights hotels pois resp reqId)) := by
  refine ⟨rfl, fun hf hh resp => ?_⟩
  cases flights with
  | nil => exact absurd rfl hf
  | cons f fs =>
    cases hotels with
    | nil => exact absurd rfl hh
    | cons h hs => rfl

open LLMPlanningService in
/-- Witness for C4: concrete candidates, both for a failing model call and a
successful one. -/
theorem generation_failure_absorbed_witness :
    generate_itinerary_text sampleRequest none = generate_fallback_itinerary sampleRequest
    ∧ generate_itinerary sampleRequest [sampleFlight] [sampleHotel] [] none "id"
        = Except.ok (create_itinerary sampleRequest [sampleFlight] [sampleHotel] [] none "id")
    ∧ generate_itinerary sampleRequest [sampleFlight] [sampleHotel] [] (some noHeaderText) "id"
        = Except.ok
          (create_itinerary sampleRequest [sampleFlight] [sampleHotel] [] (some noHeaderText)
            "id") :=
  ⟨(generation_failure_absorbed sampleRequest [sampleFlight] [sampleHotel] [] "id").1,
   (generation_failure_absorbed sampleRequest [sampleFlight] [sampleHotel] [] "id").2
      (List.cons_ne_nil _ _) (List.cons_ne_nil _ _) none,
   (generation_failure_absorbed sampleRequest [sampleFlight] [sampleHotel] [] "id").2
      (List.cons_ne_nil _ _) (List.cons_ne_nil _ _) (some noHeaderText)⟩

open LLMPlanningService in
/-- The days kept by the parsing loop over any list of day numbers are exactly
those whose extracted content is non-empty. -/
theorem filterMap_parseDay_days (req : TravelRequest) (text : Str) (days : Nat)
    (hotelName : Option String) (l : List Nat) :
    (l.filterMap (parseDay req text days hotelName)).map (fun a => a.day)
      = l.filter (fun d => !(dayContent text d days).isEmpty) := by
  induction l with
  | nil => rfl
  | cons d rest ih =>
    by_cases hc : (dayContent text d days).isEmpty
    · simp [List.filterMap_cons, List.filter_cons, parseDay, hc, ih]
    · simp [List.filterMap_cons, List.filter_cons, parseDay, hc, ih]

open LLMPlanningService in
/-- Counterexample to C2 as stated: a pipeline run whose model call succeeds
with a text containing no `Day N` headers parses to an itinerary whose
`daily_plan` is empty although the request spans 3 trip days — so `daily_plan`
does not contain one entry per trip day. -/
theorem daily_plan_not_one_per_day :
    (create_itinerary sampleRequest [sampleFlight] [sampleHotel] [] (some noHeaderText)
        "id").daily_plan.length = 0
      ∧ sampleRequest.duration = 3 := by
  constructor
  · decide
  · decide

open LLMPlanningService in
/-- C2 as amended: the parsed `daily_plan`'s day values are exactly the days
`d` of `1..duration` whose extracted content is non-empty, in that order — so
days appear at most once each, ordered by day number, but days whose header is
not found (or whose content is empty) are omitted rather than back-filled. -/
theorem daily_plan_days_spec (req : TravelRequest) (text : Str)
    (flights : List FlightOption) (hotels : List HotelOption)
    (pois : List PointOfInterest) (reqId : String) :
    ((parse_itinerary req text flights hotels pois reqId).daily_plan.map (fun a => a.day)
        = (List.range' 1 req.duration.toNat).filter
            (fun d => !(dayContent text d req.duration.toNat).isEmpty))
    ∧ ((parse_itinerary req text flights hotels pois reqId).daily_plan.map
        (fun a => a.day)).Pairwise (· < ·)
    ∧ ∀ a ∈ (parse_itinerary req text flights hotels pois reqId).daily_plan,
        1 ≤ a.day ∧ a.day ≤ req.duration.toNat := by
  have hmap :
      (parse_itinerary req text flights hotels pois reqId).daily_plan.map (fun a => a.day)
        = (List.range' 1 req.duration.toNat).filter
            (fun d => !(dayContent text d req.duration.toNat).isEmpty) := by
    show ((List.range' 1 req.duration.toNat).filterMap
        (parseDay req text req.duration.toNat
          ((hotels.head?).map (fun h => h.name)))).map (fun a => a.day) = _
    exact filterMap_parseDay_days req text req.duration.toNat
      ((hotels.head?).map (fun h => h.name)) (List.range' 1 req.duration.toNat)
  refine ⟨hmap, ?_, ?_⟩
  · rw [hmap]
    exact List.Pairwise.filter _ (List.pairwise_lt_range' 1 req.duration.toNat 1 (by omega))
  · intro a ha
    have : a.day ∈ (parse_itinerary req text flights hotels pois reqId).daily_plan.map
        (fun x => x.day) := List.mem_map_of_mem _ ha
    rw [hmap] at this
    have := List.mem_range'.1 (List.mem_of_mem_filter this)
    omega

open LLMPlanningService in
/-- C10: every activity the parser emits is dated `departDate + (day - 1)` days
(day 1 falls on the departure date and dates advance one day per day number),
and its accommodation is the name of the first hotel in the candidate list
whenever that list is non-empty. -/
theorem daily_plan_date_accommodation_spec (req : TravelRequest) (text : Str)
    (flights : List FlightOption) (hotels : List HotelOption)
    (pois : List PointOfInterest) (reqId : String)
    (a : ItineraryDayActivity)
    (ha : a ∈ (parse_itinerary req text flights hotels pois reqId).daily_plan) :
    a.date = req.depart_date + ((a.day : Int) - 1)
    ∧ ∀ (h : HotelOption) (rest : List HotelOption),
        hotels = h :: rest → a.accommodation = some h.name := by
  obtain ⟨d, _, hd⟩ := List.mem_filterMap.1 ha
  by_cases hc : (dayContent text d req.duration.toNat).isEmpty
  · simp [parseDay, hc] at hd
  · simp only [parseDay, hc, if_false, Bool.false_eq_true] at hd
    injection hd with hrec
    subst hrec
    exact ⟨rfl, fun h rest hh => by simp [hh]⟩

/-- The day-2 activity produced by parsing `headerVariantText` with no hotel
candidates. -/
def headerVariantDayTwo : ItineraryDayActivity :=
  ⟨2, 1, ("Morning: Museum\nAfternoon: Park").data, some ("Museum").data,
    some ("Park").data, none, none⟩

/-- The day-1 activity produced by parsing the fallback text of `sampleRequest`. -/
def fallbackDayOne : ItineraryDayActivity :=
  ⟨1, 0,
    ("- Morning: Breakfast at hotel, explore local area\n- Afternoon: Visit main tourist attractions\n- Evening: Dinner at local restaurant").data,
    some ("Breakfast at hotel, explore local area").data,
    some ("Visit main tourist attractions").data,
    some ("Dinner at local restaurant").data, none⟩

/-- The day-2 activity produced by parsing `headerVariantText` with the sample
hotel as sole candidate. -/
def sampleDayEntry : ItineraryDayActivity :=
  ⟨2, 1, ("Morning: Museum\nAfternoon: Park").data, some ("Museum").data,
    some ("Park").data, none, some "Grand Hotel"⟩

open LLMPlanningService in
/-- Witness for C10: the day-2 entry parsed from the header-variant text is
dated `departDate + 1` and carries the first (only) hotel's name. -/
theorem daily_plan_date_accommodation_spec_witness :
    sampleDayEntry.date = sampleRequest.depart_date + ((sampleDayEntry.day : Int) - 1)
    ∧ sampleDayEntry.accommodation = some sampleHotel.name :=
  ⟨(daily_plan_date_accommodation_spec sampleRequest headerVariantText [] [sampleHotel] []
      "id" sampleDayEntry (by decide)).1,
   (daily_plan_date_accommodation_spec sampleRequest headerVariantText [] [sampleHotel] []
      "id" sampleDayEntry (by decide)).2 sampleHotel [] rfl⟩

open LLMPlanningService in
/-- C5: for budget 2000 and duration 3 the fallback generator deterministically
produces exactly 3 `### Day N` sections; parsing that text yields one entry per
day `1, 2, 3`, each with the identical placeholder morning/afternoon/evening
text, and a total cost of `1800 = 2000 * 0.9` (the cost marker of the fallback
text is `Total estimated cost:`, which the parser's two literal alternatives do
not match, so the 90%-of-budget default applies — the same value the fallback
renders). -/
theorem fallback_determinism :
    countSub (generate_fallback_itinerary sampleRequest) ("### Day ".data) = 3
    ∧ (parse_itinerary sampleRequest (generate_fallback_itinerary sampleRequest) [] [] []
        "id").daily_plan.map (fun a => a.day) = [1, 2, 3]
    ∧ (∀ a ∈ (parse_itinerary sampleRequest (generate_fallback_itinerary sampleRequest)
          [] [] [] "id").daily_plan,
        a.morning = some ("Breakfast at hotel, explore local area").data
        ∧ a.afternoon = some ("Visit main tourist attractions").data
        ∧ a.evening = some ("Dinner at local restaurant").data)
    ∧ (parse_itinerary sampleRequest (generate_fallback_itinerary sampleRequest) [] [] []
        "id").total_cost = 1800 := by
  refine ⟨by decide, by decide, by decide, ?_⟩
  have hc : costCandidate (generate_fallback_itinerary sampleRequest) = none := by decide
  show extractTotalCost (generate_fallback_itinerary sampleRequest) sampleRequest.budget
    = 1800
  simp only [extractTotalCost, hc, Option.getD_none]
  show (2000 : ℚ) * (9 / 10) = 1800
  norm_num

open LLMPlanningService in
/-- C6: for a 3-day trip, the text
`"### Day 2\nMorning: Museum\nAfternoon: Park\n### Day 3"` parses to exactly
the day-2 entry with morning `Museum`, afternoon `Park` and no evening; the
day-2 content is the text between the day-2 header and the day-3 header (so it
excludes day 3's header), and day 3's content — which runs from its header to
end-of-text — is empty. -/
theorem parse_day_header_variants :
    (parse_itinerary sampleRequest headerVariantText [] [] [] "id").daily_plan
      = [headerVariantDayTwo]
    ∧ dayContent headerVariantText 2 3 = ("\nMorning: Museum\nAfternoon: Park\n").data
    ∧ containsSub (dayContent headerVariantText 2 3) (("### Day 3").data) = false
    ∧ dayContent headerVariantText 3 3 = [] := by
  refine ⟨by decide, by decide, by decide, by decide⟩

open LLMPlanningService in
/-- C7: a text containing `Total Cost: SGD 1,250.50` parses to total cost
`1250.50`; a text containing neither `Total cost:` nor `Total Cost:` parses to
`budget * 0.9`, and so does a text containing the marker but no
currency-prefixed number after it. -/
theorem parse_total_cost_spec :
    (∀ (req : TravelRequest) (flights : List FlightOption) (hotels : List HotelOption)
        (pois : List PointOfInterest) (reqId : String),
        (parse_itinerary req costText flights hotels pois reqId).total_cost = 2501 / 2)
    ∧ (∀ (req : TravelRequest) (text : Str) (flights : List FlightOption)
        (hotels : List HotelOption) (pois : List PointOfInterest) (reqId : String),
        containsSub text (("Total cost:").data) = false →
        containsSub text (("Total Cost:").data) = false →
        (parse_itinerary req text flights hotels pois reqId).total_cost
          = req.budget * (9 / 10))
    ∧ (∀ (req : TravelRequest) (flights : List FlightOption) (hotels : List HotelOption)
        (pois : List PointOfInterest) (reqId : String),
        (parse_itinerary req costTextNoNumber flights hotels pois reqId).total_cost
          = req.budget * (9 / 10)) := by
  have h1 : costCandidate costText = some (mkRat 2501 2) := by decide
  have h2 : costCandidate costTextNoNumber = none := by decide
  refine ⟨fun req flights hotels pois reqId => ?_,
    fun req text flights hotels pois reqId ha hb => ?_,
    fun req flights hotels pois reqId => ?_⟩
  · show extractTotalCost costText req.budget = 2501 / 2
    simp only [extractTotalCost, h1, Option.getD_some]
    rw [Rat.mkRat_eq_div]
    norm_num
  · show extractTotalCost text req.budget = req.budget * (9 / 10)
    simp [extractTotalCost, costCandidate, ha, hb]
  · show extractTotalCost costTextNoNumber req.budget = req.budget * (9 / 10)
    simp [extractTotalCost, h2]

open LLMPlanningService in
/-- Witness for the amended C2 at a concrete parse: the day-2 entry extracted
from the header-variant text has its day number within `1..duration`. -/
theorem daily_plan_days_spec_witness :
    1 ≤ headerVariantDayTwo.day ∧ headerVariantDayTwo.day ≤ sampleRequest.duration.toNat :=
  (daily_plan_days_spec sampleRequest headerVariantText [] [] [] "id").2.2
    headerVariantDayTwo (by decide)

open LLMPlanningService in
/-- Witness for C5 at the concrete day-1 entry of the parsed fallback text:
it carries the placeholder morning/afternoon/evening texts. -/
theorem fallback_determinism_witness :
    fallbackDayOne.morning = some ("Breakfast at hotel, explore local area").data
    ∧ fallbackDayOne.afternoon = some ("Visit main tourist attractions").data
    ∧ fallbackDayOne.evening = some ("Dinner at local restaurant").data :=
  fallback_determinism.2.2.1 fallbackDayOne (by decide)

open LLMPlanningService in
/-- Witness for C7: a concrete marker-free text parses to 90% of the budget. -/
theorem parse_total_cost_spec_witness :
    (parse_itinerary sampleRequest noHeaderText [] [] [] "id").total_cost
      = sampleRequest.budget * (9 / 10) :=
  parse_total_cost_spec.2.1 sampleRequest noHeaderText [] [] [] "id" (by decide) (by decide)

end NomadAI
